import Mathlib

/-!
Verification of the analytics pipeline of the nike-monitor repository
(`src/main.py`): series alignment, trailing-window correlation, earnings-date
roll-forward, performance normalization, yield resolution and report
composition.  Python floats are modelled over `ℚ` with explicit markers for
`None`, `NaN` and signed infinities where the code can produce them; calendar
dates are modelled as day numbers (days since the Unix epoch), with
`daysFromCivil` converting civil `(y, m, d)` dates to day numbers.
-/

namespace NikeMonitor

/-- A raw price-bar timestamp as delivered by the market data source: a
calendar day index (days since the Unix epoch) together with a residual
intra-day / time-zone component.  `tz_localize(None).normalize()` in
`calculate_correlation` strips the residual component and keeps only the
calendar day. -/
structure Stamp where
  day : ℤ
  sub : ℕ
deriving DecidableEq

/-- Value of a Python float arithmetic result: finite, signed infinity, or
NaN. -/
inductive PyNum where
  | fin (q : ℚ)
  | inf (pos : Bool)
  | nan
deriving DecidableEq

/-- Python/numpy float division `a / b`: division by zero yields a signed
infinity, `0 / 0` yields NaN (pandas emits a warning, not an exception). -/
def pyDivNum (a b : ℚ) : PyNum :=
  if b = 0 then (if a = 0 then PyNum.nan else PyNum.inf (0 < a)) else PyNum.fin (a / b)

/-- Argument of `format_number` in the source: Python `None`, float NaN, or a
finite float value. -/
inductive PyOpt where
  | none
  | nan
  | val (q : ℚ)
deriving DecidableEq

/-- Round to the nearest integer, ties to the even integer (the rounding used
by Python float formatting; binary-representation artifacts of the float are
not modelled and do not matter at the values evaluated here). -/
def roundHalfEven (q : ℚ) : ℤ :=
  let f := ⌊q⌋
  let r := q - f
  if r < 1 / 2 then f
  else if 1 / 2 < r then f + 1
  else if f % 2 = 0 then f else f + 1

/-- Rendering of a finite float with two decimal places, as Python
f-string formatting with a .2f conversion produces. -/
def fmt2 (q : ℚ) : String :=
  let n : ℤ := roundHalfEven (q * 100)
  let sgn := if n < 0 then "-" else ""
  let a := n.natAbs
  let ip := a / 100
  let fp := a % 100
  sgn ++ toString ip ++ "." ++ (if fp < 10 then "0" else "") ++ toString fp

/-- `format_number` from the source: `None` renders as the explicit `"N/A"`
marker; a NaN float falls through to the f-string and renders as `"nan"`;
a finite float renders with two decimals (times 100 first in percent mode). -/
def format_number (num : PyOpt) (is_percent : Bool) : String :=
  match num with
  | PyOpt.none => "N/A"
  | PyOpt.nan => "nan"
  | PyOpt.val q => if is_percent then fmt2 (q * 100) else fmt2 q

/-- Day number of a civil calendar date (days since 1970-01-01, proleptic
Gregorian); the standard era/year-of-era conversion.  All intermediate
quantities are nonnegative for the years used here, so truncating integer
division coincides with floor division. -/
def daysFromCivil (y m d : ℤ) : ℤ :=
  let yAdj := if m ≤ 2 then y - 1 else y
  let era := (if 0 ≤ yAdj then yAdj else yAdj - 399) / 400
  let yoe := yAdj - era * 400
  let mp := (m + 9) % 12
  let doy := (153 * mp + 2) / 5 + d - 1
  let doe := yoe * 365 + yoe / 4 - yoe / 100 + doy
  era * 146097 + doe - 719468

/-- Result of `get_smart_earnings_date`, which in the source is one of three
string shapes: the `"未定/未知"` unknown marker, `str(raw_date)` for a
future-or-today source date, or `f"{estimated_next} (預估)"` for a date rolled
forward from a stale source (the `(預估)` suffix is the estimated flag). -/
inductive EarningsStr where
  | unknown
  | plain (d : ℤ)
  | estimated (d : ℤ)
deriving DecidableEq

/-- The `while estimated_next < today: estimated_next += timedelta(days=91)`
loop of `get_smart_earnings_date`, entered with `estimated_next = d`. -/
def rollForward (today d : ℤ) : ℤ :=
  if h : d < today then rollForward today (d + 91) else d
termination_by (today - d).toNat
decreasing_by omega

/-- Models `datetime.fromtimestamp(ts).date()` for a runner whose local clock
is UTC: epoch seconds floor-divided into epoch days. -/
def fromtimestampDate (ts : ℤ) : ℤ := ts.fdiv 86400

/-- Source-date resolution of `get_smart_earnings_date`: the calendar object
when present (a `date`/`datetime` object is always truthy in Python), else the
fundamentals `earningsTimestamp` when that is truthy (a zero timestamp is
falsy and is skipped), else nothing. -/
def rawDateOf (earningsDateObj earningsTimestamp : Option ℤ) : Option ℤ :=
  match earningsDateObj with
  | some d => some d
  | none =>
    match earningsTimestamp with
    | some ts => if ts = 0 then none else some (fromtimestampDate ts)
    | none => none

/-- `get_smart_earnings_date` from the source.  With no resolved source date
the unknown marker is returned.  A source date on or after `today` is returned
unchanged; a past source date is advanced by 91 days and then repeatedly
rolled forward by 91 days until it is no longer before `today`, and flagged
estimated. -/
def get_smart_earnings_date (earningsDateObj : Option ℤ) (earningsTimestamp : Option ℤ)
    (today : ℤ) : EarningsStr :=
  match rawDateOf earningsDateObj earningsTimestamp with
  | none => EarningsStr.unknown
  | some r =>
    if today ≤ r then EarningsStr.plain r
    else EarningsStr.estimated (rollForward today (r + 91))

/-- Calendar days of a raw history, after the time-zone / time-of-day strip
(`tz_localize(None).normalize()`). -/
def datesOf (hist : List (Stamp × ℚ)) : List ℤ := hist.map (fun p => p.1.day)

/-- A close-price series re-indexed by stripped calendar day. -/
def seriesIdx (hist : List (Stamp × ℚ)) : List (ℤ × ℚ) :=
  hist.map (fun p => (p.1.day, p.2))

/-- The close recorded at day `d` (first match; unique under a no-duplicate
hypothesis on the dates), defaulting to 0 when the day is absent. -/
def lookupD (l : List (ℤ × ℚ)) (d : ℤ) : ℚ :=
  ((l.filter (fun p => decide (p.1 = d))).map (fun p => p.2)).headD 0

/-- Days kept by the inner join of `pd.concat(..., axis=1, sort=True).dropna()`:
exactly the stripped days present in both inputs. -/
def commonDates (histUS histTW : List (Stamp × ℚ)) : List ℤ :=
  (datesOf histUS).filter (fun d => decide (d ∈ datesOf histTW))

/-- The aligned pair: rows `(day, closeUS, closeTW)` for each day present in
both stripped series, in ascending day order — the dataframe built by
`pd.concat([us_close, tw_close], axis=1, keys=['US','TW'], sort=True).dropna()`
in `calculate_correlation` (with unique dates per input, as a pandas index
with duplicates would make `concat` raise instead). -/
def align (histUS histTW : List (Stamp × ℚ)) : List (ℤ × ℚ × ℚ) :=
  (List.insertionSort (fun a b => a ≤ b) (commonDates histUS histTW)).map
    (fun d => (d, lookupD (seriesIdx histUS) d, lookupD (seriesIdx histTW) d))

/-- The last `n` entries of a list: `df.tail(n)` (all entries when fewer than
`n` exist). -/
def lastN (n : ℕ) (l : List α) : List α := l.drop (l.length - n)

/-- Centered sum of squares `Σ (x - mean)²` of a list; the sample variance is
this over `n - 1`, so it is zero exactly when the (co)variance is zero, which
is when pandas produces a NaN correlation. -/
def ssq (xs : List ℚ) : ℚ :=
  let m := xs.sum / (xs.length : ℚ)
  (xs.map (fun x => (x - m) ^ 2)).sum

/-- Centered sum of products `Σ (x - meanX) * (y - meanY)` over the zip of two
equal-length lists: the Pearson numerator (the 1/(n-1) factors of covariance
and standard deviations cancel in the quotient). -/
def scp (xs ys : List ℚ) : ℚ :=
  let mx := xs.sum / (xs.length : ℚ)
  let my := ys.sum / (ys.length : ℚ)
  ((xs.zip ys).map (fun p => (p.1 - mx) * (p.2 - my))).sum

/-- The trailing window `df.tail(30)` of the aligned pair. -/
def corrWindow (histUS histTW : List (Stamp × ℚ)) : List (ℤ × ℚ × ℚ) :=
  lastN 30 (align histUS histTW)

/-- US-close column of the trailing correlation window. -/
def windowUS (histUS histTW : List (Stamp × ℚ)) : List ℚ :=
  (corrWindow histUS histTW).map (fun r => r.2.1)

/-- TW-close column of the trailing correlation window. -/
def windowTW (histUS histTW : List (Stamp × ℚ)) : List ℚ :=
  (corrWindow histUS histTW).map (fun r => r.2.2)

/-- Value of the Python float produced by `calculate_correlation`: the literal
`0` returned when the aligned frame has fewer than 10 rows; NaN, which pandas
`.corr()` produces when either column of the 30-row tail has zero variance;
or a genuine Pearson coefficient, denoted by its centered sum of products `c`
and the two centered sums of squares `vx, vy` (the real value is
`c / (√vx · √vy)`, irrational in general, so it is carried in this exact
form; the constructor is only ever produced with `vx ≠ 0` and `vy ≠ 0`). -/
inductive CorrValue where
  | ofRat (q : ℚ)
  | nan
  | pearson (c vx vy : ℚ)
deriving DecidableEq

/-- `calculate_correlation` from the source: align the two stripped close
series, return the number 0 when fewer than 10 rows survive the inner join,
otherwise the Pearson coefficient of the two columns of the 30-row tail
(NaN when either column there is constant).  The surrounding
`try/except: return 0` only fires on inputs excluded here (duplicate stripped
dates, which make `pd.concat` raise). -/
def calculate_correlation (histUS histTW : List (Stamp × ℚ)) : CorrValue :=
  if (align histUS histTW).length < 10 then CorrValue.ofRat 0
  else if ssq (windowUS histUS histTW) = 0 ∨ ssq (windowTW histUS histTW) = 0 then
    CorrValue.nan
  else
    CorrValue.pearson (scp (windowUS histUS histTW) (windowTW histUS histTW))
      (ssq (windowUS histUS histTW)) (ssq (windowTW histUS histTW))

/-- Python comparison `corr > t` on the float denoted by a `CorrValue`
(false on NaN, as all NaN comparisons are).  For a Pearson value
`c / √(vx·vy)` the comparison is decided by sign analysis and squaring;
the `vx·vy ≤ 0` case never arises from `calculate_correlation`. -/
def corrGtB (v : CorrValue) (t : ℚ) : Bool :=
  match v with
  | CorrValue.ofRat q => decide (t < q)
  | CorrValue.nan => false
  | CorrValue.pearson c vx vy =>
    if 0 ≤ t then decide (0 < c) && decide (t ^ 2 * (vx * vy) < c ^ 2)
    else decide (0 ≤ c) || decide (c ^ 2 < t ^ 2 * (vx * vy))

/-- Python comparison `corr < t` on the float denoted by a `CorrValue`
(false on NaN). -/
def corrLtB (v : CorrValue) (t : ℚ) : Bool :=
  match v with
  | CorrValue.ofRat q => decide (q < t)
  | CorrValue.nan => false
  | CorrValue.pearson c vx vy =>
    if t ≤ 0 then decide (c < 0) && decide (t ^ 2 * (vx * vy) < c ^ 2)
    else decide (c ≤ 0) || decide (c ^ 2 < t ^ 2 * (vx * vy))

/-- `pd.isna` on the correlation float. -/
def corrIsNa (v : CorrValue) : Bool :=
  match v with
  | CorrValue.nan => true
  | _ => false

/-- The correlation-strength classification of `send_discord_notification`
(step 3 of the source), in source order: the NaN check first, then the
`> 0.7`, `> 0.3`, `< -0.3` ladder, with everything else falling to the
weak/no-correlation text. -/
def corr_text (corr : CorrValue) : String :=
  if corrIsNa corr then "數據不足"
  else if corrGtB corr (7 / 10) then "🔗 高度連動 (跟漲跟跌)"
  else if corrGtB corr (3 / 10) then "📈 中度正相關"
  else if corrLtB corr (-(3 / 10)) then "📉 負相關 (背離)"
  else "💔 脫鉤/無明顯相關"

/-- One normalized chart point: `(close / firstClose - 1) * 100` in float
arithmetic (NaN or a signed infinity when the first close is zero). -/
def normPoint (c0 c : ℚ) : PyNum :=
  match pyDivNum c c0 with
  | PyNum.fin r => PyNum.fin ((r - 1) * 100)
  | PyNum.inf p => PyNum.inf p
  | PyNum.nan => PyNum.nan

/-- The performance normalization of `generate_chart`:
`(closes / closes.iloc[0] - 1) * 100`, rebasing a close series to percent
change from its first observation; the empty series produces no points. -/
def normalizeCloses (closes : List ℚ) : List PyNum :=
  match closes with
  | [] => []
  | c0 :: _ => closes.map (normPoint c0)

/-- One plotted chart line: stripped timestamps paired with the normalized
closes of a history. -/
def chartLine (hist : List (Stamp × ℚ)) : List (Stamp × PyNum) :=
  (hist.map (fun p => p.1)).zip (normalizeCloses (hist.map (fun p => p.2)))

/-- The chart lines drawn by `generate_chart`: both series are plotted only
when both are non-empty (`if len(hist_us) > 0 and len(hist_tw) > 0`); the
guard failing draws no line and raises no error. -/
def generate_chart_lines (histUS histTW : List (Stamp × ℚ)) :
    List (List (Stamp × PyNum)) :=
  if 0 < histUS.length ∧ 0 < histTW.length then [chartLine histUS, chartLine histTW]
  else []

/-- Python truthiness of an optional float field read with `.get`: present and
nonzero. -/
def optTruthy (o : Option ℚ) : Bool :=
  match o with
  | some q => decide (q ≠ 0)
  | none => false

/-- The `elif tw.get('dividendYield'): ... else: tw_yield = 0` tail of the
yield resolution: the reported yield fraction times 100 when that field is
truthy, else the literal 0. -/
def yieldFallback (divYield : Option ℚ) : ℚ :=
  if optTruthy divYield then divYield.getD 0 * 100 else 0

/-- The yield resolution of `send_discord_notification` (step 2 of the
source).  `if tw.get('dividendRate') and tw_hist['Close'].iloc[-1]:` — with a
falsy (absent or zero) rate the close is never touched and control moves to
the `dividendYield` branch; with a truthy rate, a missing last close makes
`.iloc[-1]` raise and the blanket `except` yields 0, a zero last close makes
the conjunction falsy and control moves on, and otherwise the yield is
`rate / close * 100`. -/
def resolveYield (rate divYield : Option ℚ) (closeLast : Option ℚ) : ℚ :=
  if optTruthy rate then
    match closeLast with
    | none => 0
    | some c => if c ≠ 0 then rate.getD 0 / c * 100 else yieldFallback divYield
  else yieldFallback divYield

/-- The fundamentals fields the report reads from a per-ticker `info` dict;
each is optional, absence being a normal state. -/
structure InfoDict where
  trailingPE : Option ℚ
  recommendationKey : Option String
  dividendRate : Option ℚ
  dividendYield : Option ℚ
  earningsTimestamp : Option ℤ
deriving DecidableEq

/-- `.iloc[-1]` of a close series, when it exists. -/
def ilocLast (l : List ℚ) : Option ℚ := l.getLast?

/-- `.iloc[-2]` of a close series, when it exists. -/
def ilocPrev (l : List ℚ) : Option ℚ := (l.reverse.drop 1).head?

/-- Day-over-day percent change `(p - prev) / prev * 100` in float
arithmetic. -/
def pctChange (prev p : ℚ) : PyNum :=
  match pyDivNum (p - prev) prev with
  | PyNum.fin r => PyNum.fin (r * 100)
  | PyNum.inf b => PyNum.inf b
  | PyNum.nan => PyNum.nan

/-- The semantic content of the Discord embed assembled by
`send_discord_notification`: every datum that is formatted into the payload.
The correlation is carried as its `CorrValue` (the description embeds
`format_number(corr)` and the classification text), `footerNow` is the
reading of the Taipei-zone clock formatted into the footer, and the remaining
fields are the values interpolated into the two ticker blocks. -/
structure Report where
  corr : CorrValue
  corrText : String
  earnings : EarningsStr
  nkePrice : ℚ
  nkePct : PyNum
  nkePE : Option ℚ
  nkeRec : String
  twPrice : ℚ
  twPct : PyNum
  twPE : Option ℚ
  twYield : ℚ
  footerNow : ℤ
deriving DecidableEq

/-- The report composition of `send_discord_notification`, with the two clock
reads of the source made explicit: `today` is the value of `date.today()`
(runner-local date) consumed by `get_smart_earnings_date`, and `nowTaipei` the
value of `datetime.now(pytz.timezone('Asia/Taipei'))` formatted into the
footer.  `none` models the uncaught `IndexError` of `iloc[-1]`/`iloc[-2]` when
either close series has fewer than two points (no embed is built). -/
def compose_report (nkeHist twHist : List (Stamp × ℚ)) (nkeInfo twInfo : InfoDict)
    (earningsDateObj : Option ℤ) (corr : CorrValue) (today nowTaipei : ℤ) :
    Option Report :=
  let nkeCloses := nkeHist.map (fun p => p.2)
  let twCloses := twHist.map (fun p => p.2)
  match ilocLast nkeCloses, ilocPrev nkeCloses, ilocLast twCloses, ilocPrev twCloses with
  | some np, some npv, some tp, some tpv =>
    some
      { corr := corr
        corrText := corr_text corr
        earnings := get_smart_earnings_date earningsDateObj nkeInfo.earningsTimestamp today
        nkePrice := np
        nkePct := pctChange npv np
        nkePE := nkeInfo.trailingPE
        nkeRec := (nkeInfo.recommendationKey.getD "N/A").toUpper
        twPrice := tp
        twPct := pctChange tpv tp
        twPE := twInfo.trailingPE
        twYield := resolveYield twInfo.dividendRate twInfo.dividendYield (ilocLast twCloses)
        footerNow := nowTaipei }
  | _, _, _, _ => none

/-- Concrete history builder for witnesses and counterexamples: days paired
with closes, with a zero intra-day component. -/
def mkSeries (ds : List ℤ) (cs : List ℚ) : List (Stamp × ℚ) :=
  (ds.map (fun d => Stamp.mk d 0)).zip cs

/-- A nine-day US history aligning day-for-day with `sample9TW`. -/
def sample9US : List (Stamp × ℚ) :=
  mkSeries [0, 1, 2, 3, 4, 5, 6, 7, 8] [1, 2, 3, 4, 5, 6, 7, 8, 9]

/-- A nine-day TW history aligning day-for-day with `sample9US`. -/
def sample9TW : List (Stamp × ℚ) :=
  mkSeries [0, 1, 2, 3, 4, 5, 6, 7, 8] [2, 3, 4, 5, 6, 7, 8, 9, 10]

/-- A ten-day US history of strictly increasing closes. -/
def sample10US : List (Stamp × ℚ) :=
  mkSeries [0, 1, 2, 3, 4, 5, 6, 7, 8, 9] [1, 2, 3, 4, 5, 6, 7, 8, 9, 10]

/-- A ten-day TW history of strictly increasing closes. -/
def sample10TW : List (Stamp × ℚ) :=
  mkSeries [0, 1, 2, 3, 4, 5, 6, 7, 8, 9] [1, 2, 3, 4, 5, 6, 7, 8, 9, 10]

/-- A ten-day constant (zero-variance) US history. -/
def sampleConst10US : List (Stamp × ℚ) :=
  mkSeries [0, 1, 2, 3, 4, 5, 6, 7, 8, 9] [5, 5, 5, 5, 5, 5, 5, 5, 5, 5]

/-- A ten-day constant (zero-variance) TW history. -/
def sampleConst10TW : List (Stamp × ℚ) :=
  mkSeries [0, 1, 2, 3, 4, 5, 6, 7, 8, 9] [3, 3, 3, 3, 3, 3, 3, 3, 3, 3]

/-- A two-day history used in the report-composition counterexample. -/
def cxHist : List (Stamp × ℚ) := mkSeries [0, 1] [1, 2]

/-- A fundamentals record with every optional field absent. -/
def cxInfo : InfoDict :=
  { trailingPE := Option.none
    recommendationKey := Option.none
    dividendRate := Option.none
    dividendYield := Option.none
    earningsTimestamp := Option.none }

/-- The report composed from `cxHist`/`cxInfo` with a source earnings date of
day −50, when the local-date clock read returns −100 and the Taipei footer
clock read returns 0. -/
def cxReportA : Report :=
  { corr := CorrValue.ofRat 0
    corrText := corr_text (CorrValue.ofRat 0)
    earnings := get_smart_earnings_date (some (-50)) Option.none (-100)
    nkePrice := 2
    nkePct := pctChange 1 2
    nkePE := Option.none
    nkeRec := "N/A".toUpper
    twPrice := 2
    twPct := pctChange 1 2
    twPE := Option.none
    twYield := resolveYield Option.none Option.none (some 2)
    footerNow := 0 }

/-- `cxReportA` with the Taipei footer clock read returning 5 instead. -/
def cxReportB : Report :=
  { cxReportA with footerNow := 5 }

/-- `cxReportA` with the local-date clock read returning 0 instead. -/
def cxReportC : Report :=
  { cxReportA with earnings := get_smart_earnings_date (some (-50)) Option.none 0 }

/-! ### Helper lemmas -/

theorem rollForward_of_lt {today d : ℤ} (h : d < today) :
    rollForward today d = rollForward today (d + 91) := by
  rw [rollForward]
  simp [h]

theorem rollForward_of_ge {today d : ℤ} (h : ¬ d < today) :
    rollForward today d = d := by
  rw [rollForward]
  simp [h]

/-- The roll-forward loop advances its entry value by 91-day steps, stopping
at the first value that is not before `today`. -/
theorem rollForward_spec (today d : ℤ) :
    ∃ j : ℕ, rollForward today d = d + 91 * (j : ℤ) ∧ today ≤ d + 91 * (j : ℤ) ∧
      ∀ i : ℕ, i < j → d + 91 * (i : ℤ) < today := by
  by_cases h : d < today
  · obtain ⟨j, h1, h2, h3⟩ := rollForward_spec today (d + 91)
    refine ⟨j + 1, ?_, by push_cast; omega, ?_⟩
    · rw [rollForward_of_lt h, h1]; push_cast; ring
    · intro i hi
      cases i with
      | zero => simpa using h
      | succ i2 =>
        have := h3 i2 (by omega)
        push_cast at this ⊢
        omega
  · exact ⟨0, by simp [rollForward_of_ge h], by simpa using h, by omega⟩
termination_by (today - d).toNat
decreasing_by omega

/-- The days of the aligned pair are the sorted common dates. -/
theorem align_map_fst (histUS histTW : List (Stamp × ℚ)) :
    (align histUS histTW).map (fun r => r.1) =
      List.insertionSort (fun a b => a ≤ b) (commonDates histUS histTW) := by
  simp only [align, List.map_map]
  exact List.map_id _


/-- Evaluation of the US window of the ten-point sample. -/
theorem windowUS_sample10 : windowUS sample10US sample10TW = [1,2,3,4,5,6,7,8,9,10] := by
  norm_num [windowUS, corrWindow, lastN, align, commonDates, datesOf, seriesIdx, lookupD,
    mkSeries, sample10US, sample10TW, List.insertionSort, List.orderedInsert]

/-- Evaluation of the TW window of the ten-point sample. -/
theorem windowTW_sample10 : windowTW sample10US sample10TW = [1,2,3,4,5,6,7,8,9,10] := by
  norm_num [windowTW, corrWindow, lastN, align, commonDates, datesOf, seriesIdx, lookupD,
    mkSeries, sample10US, sample10TW, List.insertionSort, List.orderedInsert]

/-- Evaluation of the US window of the constant ten-point sample. -/
theorem windowUS_const10 : windowUS sampleConst10US sampleConst10TW = [5,5,5,5,5,5,5,5,5,5] := by
  norm_num [windowUS, corrWindow, lastN, align, commonDates, datesOf, seriesIdx, lookupD,
    mkSeries, sampleConst10US, sampleConst10TW, List.insertionSort, List.orderedInsert]

/-- The centered sum of squares of the 1..10 window is nonzero. -/
theorem ssq_ten : ssq [1,2,3,4,5,6,7,8,9,10] = 165 / 2 := by
  norm_num [ssq]

/-- The centered sum of squares of a constant window is zero. -/
theorem ssq_const5 : ssq [(5:ℚ),5,5,5,5,5,5,5,5,5] = 0 := by
  norm_num [ssq]

/-! ### Claim theorems -/

/-- C7: the aligned pair contains exactly the time-zone-stripped calendar
dates present in both inputs, in ascending order; its length is at most the
minimum of the input lengths; and disjoint date sets align to the empty pair
without error.  The no-duplicate hypotheses reflect the data-model invariant
(a series never holds two points of the same date); with a duplicated index
pandas `concat` would raise instead of aligning. -/
theorem align_is_inner_join (histUS histTW : List (Stamp × ℚ))
    (hU : (datesOf histUS).Nodup) (_hT : (datesOf histTW).Nodup) :
    (∀ d : ℤ, d ∈ (align histUS histTW).map (fun r => r.1) ↔
        d ∈ datesOf histUS ∧ d ∈ datesOf histTW) ∧
    ((align histUS histTW).map (fun r => r.1)).Sorted (fun a b => a < b) ∧
    (align histUS histTW).length ≤ min histUS.length histTW.length ∧
    ((∀ d : ℤ, d ∈ datesOf histUS → d ∉ datesOf histTW) → align histUS histTW = []) := by
  have hcommon : (commonDates histUS histTW).Nodup := hU.filter _
  have hperm := List.perm_insertionSort (fun a b : ℤ => a ≤ b) (commonDates histUS histTW)
  refine ⟨?_, ?_, ?_, ?_⟩
  · intro d
    rw [align_map_fst, hperm.mem_iff]
    simp [commonDates, List.mem_filter]
  · rw [align_map_fst]
    exact (List.sorted_insertionSort _ _).lt_of_le (hperm.nodup_iff.mpr hcommon)
  · have hlen : (align histUS histTW).length = (commonDates histUS histTW).length := by
      simp [align, hperm.length_eq]
    rw [hlen]
    refine le_min ?_ ?_
    · calc (commonDates histUS histTW).length ≤ (datesOf histUS).length :=
        List.length_filter_le _ _
      _ = histUS.length := by simp [datesOf]
    · have hsub : commonDates histUS histTW ⊆ datesOf histTW := by
        intro d hd
        simp only [commonDates, List.mem_filter, decide_eq_true_eq] at hd
        exact hd.2
      calc (commonDates histUS histTW).length ≤ (datesOf histTW).length :=
        (List.subperm_of_subset hcommon hsub).length_le
      _ = histTW.length := by simp [datesOf]
  · intro hdisj
    have hnil : commonDates histUS histTW = [] := by
      rw [commonDates, List.filter_eq_nil_iff]
      intro d hd
      simp [hdisj d hd]
    simp [align, hnil]

/-- Witness for C7 at a concrete overlapping pair of three-point series. -/
theorem align_is_inner_join_witness :
    (∀ d : ℤ, d ∈ (align (mkSeries [0, 1, 3] [1, 2, 3]) (mkSeries [1, 2, 3] [4, 5, 6])).map
          (fun r => r.1) ↔
        d ∈ datesOf (mkSeries [0, 1, 3] [1, 2, 3]) ∧
        d ∈ datesOf (mkSeries [1, 2, 3] [4, 5, 6])) ∧
    ((align (mkSeries [0, 1, 3] [1, 2, 3]) (mkSeries [1, 2, 3] [4, 5, 6])).map
        (fun r => r.1)).Sorted (fun a b => a < b) ∧
    (align (mkSeries [0, 1, 3] [1, 2, 3]) (mkSeries [1, 2, 3] [4, 5, 6])).length ≤
      min (mkSeries [0, 1, 3] [1, 2, 3]).length (mkSeries [1, 2, 3] [4, 5, 6]).length ∧
    ((∀ d : ℤ, d ∈ datesOf (mkSeries [0, 1, 3] [1, 2, 3]) →
        d ∉ datesOf (mkSeries [1, 2, 3] [4, 5, 6])) →
      align (mkSeries [0, 1, 3] [1, 2, 3]) (mkSeries [1, 2, 3] [4, 5, 6]) = []) :=
  align_is_inner_join (mkSeries [0, 1, 3] [1, 2, 3]) (mkSeries [1, 2, 3] [4, 5, 6])
    (by decide) (by decide)

/-- C2: the correlation-strength classification is a pure function of the
numeric correlation value, with `> 0.7` strong, `(0.3, 0.7]` moderate
(0.7 itself falls here), `[-0.3, 0.3]` weak/no correlation (−0.30 inclusive),
`< −0.3` negatively correlated, and the NaN sentinel insufficient data. -/
theorem corr_text_buckets :
    (∀ c : ℚ, 7 / 10 < c → corr_text (CorrValue.ofRat c) = "🔗 高度連動 (跟漲跟跌)") ∧
    (∀ c : ℚ, 3 / 10 < c → c ≤ 7 / 10 → corr_text (CorrValue.ofRat c) = "📈 中度正相關") ∧
    (∀ c : ℚ, -(3 / 10) ≤ c → c ≤ 3 / 10 → corr_text (CorrValue.ofRat c) = "💔 脫鉤/無明顯相關") ∧
    (∀ c : ℚ, c < -(3 / 10) → corr_text (CorrValue.ofRat c) = "📉 負相關 (背離)") ∧
    corr_text CorrValue.nan = "數據不足" := by
  refine ⟨?_, ?_, ?_, ?_, by simp [corr_text, corrIsNa]⟩
  · intro c h
    simp [corr_text, corrIsNa, corrGtB, h]
  · intro c h1 h2
    have g1 : ¬ 7 / 10 < c := not_lt.mpr h2
    simp [corr_text, corrIsNa, corrGtB, h1, g1]
  · intro c h1 h2
    have g1 : ¬ 7 / 10 < c := by linarith
    have g2 : ¬ 3 / 10 < c := not_lt.mpr h2
    have g3 : ¬ c < -(3 / 10) := not_lt.mpr h1
    simp [corr_text, corrIsNa, corrGtB, corrLtB, g1, g2, g3]
  · intro c h
    have g1 : ¬ 7 / 10 < c := by linarith
    have g2 : ¬ 3 / 10 < c := by linarith
    simp [corr_text, corrIsNa, corrGtB, corrLtB, g1, g2, h]

/-- Witness for C2 at the boundary values 0.8, 0.7, −0.30, −0.31 and NaN. -/
theorem corr_text_buckets_witness :
    corr_text (CorrValue.ofRat (8 / 10)) = "🔗 高度連動 (跟漲跟跌)" ∧
    corr_text (CorrValue.ofRat (7 / 10)) = "📈 中度正相關" ∧
    corr_text (CorrValue.ofRat (-(3 / 10))) = "💔 脫鉤/無明顯相關" ∧
    corr_text (CorrValue.ofRat (-(31 / 100))) = "📉 負相關 (背離)" ∧
    corr_text CorrValue.nan = "數據不足" :=
  ⟨corr_text_buckets.1 _ (by norm_num),
   corr_text_buckets.2.1 _ (by norm_num) (by norm_num),
   corr_text_buckets.2.2.1 _ (by norm_num) (by norm_num),
   corr_text_buckets.2.2.2.1 _ (by norm_num),
   corr_text_buckets.2.2.2.2⟩

/-- C3: a resolved raw source date strictly before today is advanced to
`source + k·91` days for the least `k ≥ 1` reaching today, flagged estimated;
the loop terminates (the function is total, with the explicit bound below);
any non-unknown result is on or after today; and for today 2024-06-01 with
source 2024-01-15 the result is 2024-07-15, estimated. -/
theorem earnings_roll_forward :
    (∀ (r : ℤ) (ts : Option ℤ) (today : ℤ), r < today →
      ∃ k : ℕ, 1 ≤ k ∧
        get_smart_earnings_date (some r) ts today = EarningsStr.estimated (r + 91 * (k : ℤ)) ∧
        today ≤ r + 91 * (k : ℤ) ∧ ∀ i : ℕ, i < k → r + 91 * (i : ℤ) < today) ∧
    (∀ (cal ts : Option ℤ) (today d : ℤ),
      get_smart_earnings_date cal ts today = EarningsStr.plain d → today ≤ d) ∧
    (∀ (cal ts : Option ℤ) (today d : ℤ),
      get_smart_earnings_date cal ts today = EarningsStr.estimated d → today ≤ d) ∧
    get_smart_earnings_date (some (daysFromCivil 2024 1 15)) Option.none
      (daysFromCivil 2024 6 1) = EarningsStr.estimated (daysFromCivil 2024 7 15) := by
  refine ⟨?_, ?_, ?_, ?_⟩
  · intro r ts today h
    have hstep : get_smart_earnings_date (some r) ts today =
        EarningsStr.estimated (rollForward today (r + 91)) := by
      simp [get_smart_earnings_date, rawDateOf, not_le.mpr h]
    obtain ⟨j, h1, h2, h3⟩ := rollForward_spec today (r + 91)
    refine ⟨j + 1, by omega, ?_, by push_cast; omega, ?_⟩
    · rw [hstep, h1]
      congr 1
      push_cast
      ring
    · intro i hi
      cases i with
      | zero => simpa using h
      | succ i2 =>
        have := h3 i2 (by omega)
        push_cast at this ⊢
        omega
  · intro cal ts today d h
    unfold get_smart_earnings_date at h
    rcases hraw : rawDateOf cal ts with _ | r
    · rw [hraw] at h
      simp at h
    · rw [hraw] at h
      by_cases hc : today ≤ r
      · simp [hc] at h
        omega
      · simp [hc] at h
  · intro cal ts today d h
    unfold get_smart_earnings_date at h
    rcases hraw : rawDateOf cal ts with _ | r
    · rw [hraw] at h
      simp at h
    · rw [hraw] at h
      by_cases hc : today ≤ r
      · simp [hc] at h
      · simp [hc] at h
        obtain ⟨j, h1, h2, h3⟩ := rollForward_spec today (r + 91)
        omega
  · have e1 : daysFromCivil 2024 1 15 = 19737 := by decide
    have e2 : daysFromCivil 2024 6 1 = 19875 := by decide
    have e3 : daysFromCivil 2024 7 15 = 19919 := by decide
    rw [e1, e2, e3]
    have hstep : get_smart_earnings_date (some (19737 : ℤ)) Option.none (19875 : ℤ) =
        EarningsStr.estimated (rollForward 19875 (19737 + 91)) := by
      simp [get_smart_earnings_date, rawDateOf]
    rw [hstep, rollForward_of_lt (by norm_num), rollForward_of_ge (by norm_num)]
    norm_num

/-- Witness for C3: a stale source date 0 rolled against today 100 lands at
the least 91-day multiple reaching 100. -/
theorem earnings_roll_forward_witness :
    ∃ k : ℕ, 1 ≤ k ∧
      get_smart_earnings_date (some 0) Option.none 100 =
        EarningsStr.estimated (0 + 91 * (k : ℤ)) ∧
      (100 : ℤ) ≤ 0 + 91 * (k : ℤ) ∧ ∀ i : ℕ, i < k → (0 : ℤ) + 91 * (i : ℤ) < 100 :=
  earnings_roll_forward.1 0 Option.none 100 (by norm_num)

/-- C9: whenever the estimator rolls a stale source forward (an estimated
result), the returned date is at least today and strictly less than today
plus 91 days — within one 91-day quarter of the generation date. -/
theorem estimated_within_one_quarter :
    ∀ (cal ts : Option ℤ) (today d : ℤ),
      get_smart_earnings_date cal ts today = EarningsStr.estimated d →
      today ≤ d ∧ d < today + 91 := by
  intro cal ts today d h
  unfold get_smart_earnings_date at h
  rcases hraw : rawDateOf cal ts with _ | r
  · rw [hraw] at h
    simp at h
  · rw [hraw] at h
    by_cases hc : today ≤ r
    · simp [hc] at h
    · simp [hc] at h
      obtain ⟨j, h1, h2, h3⟩ := rollForward_spec today (r + 91)
      rcases Nat.eq_zero_or_pos j with hj | hj
      · subst hj
        simp at h1
        omega
      · have := h3 (j - 1) (by omega)
        have hcast : ((j - 1 : ℕ) : ℤ) = (j : ℤ) - 1 := by
          push_cast [Nat.cast_sub hj]
          ring
        rw [hcast] at this
        omega

/-- Witness for C9: stale source 0 against today 100 gives the estimated date
182, which lies in `[100, 191)`. -/
theorem estimated_within_one_quarter_witness :
    (100 : ℤ) ≤ 182 ∧ (182 : ℤ) < 100 + 91 :=
  estimated_within_one_quarter (some 0) Option.none 100 182 (by
    have hstep : get_smart_earnings_date (some (0 : ℤ)) Option.none (100 : ℤ) =
        EarningsStr.estimated (rollForward 100 (0 + 91)) := by
      simp [get_smart_earnings_date, rawDateOf]
    rw [hstep, rollForward_of_lt (by norm_num), rollForward_of_ge (by norm_num)]
    norm_num)

/-- C1 (amended): an aligned pair of fewer than 10 points makes
`calculate_correlation` return the number 0 — not a distinct sentinel — while
10 or more points with nonzero variance in both tail columns produce a genuine
Pearson value; concretely, 9 aligned points give 0 and 10 give a Pearson
value. -/
theorem corr_short_window_zero :
    (∀ histUS histTW : List (Stamp × ℚ), (align histUS histTW).length < 10 →
        calculate_correlation histUS histTW = CorrValue.ofRat 0) ∧
    (∀ histUS histTW : List (Stamp × ℚ), 10 ≤ (align histUS histTW).length →
        ssq (windowUS histUS histTW) ≠ 0 → ssq (windowTW histUS histTW) ≠ 0 →
        calculate_correlation histUS histTW =
          CorrValue.pearson (scp (windowUS histUS histTW) (windowTW histUS histTW))
            (ssq (windowUS histUS histTW)) (ssq (windowTW histUS histTW))) ∧
    (align sample9US sample9TW).length = 9 ∧
    calculate_correlation sample9US sample9TW = CorrValue.ofRat 0 ∧
    (align sample10US sample10TW).length = 10 ∧
    (∃ c vx vy : ℚ, calculate_correlation sample10US sample10TW =
        CorrValue.pearson c vx vy) := by
  have short : ∀ histUS histTW : List (Stamp × ℚ), (align histUS histTW).length < 10 →
      calculate_correlation histUS histTW = CorrValue.ofRat 0 := by
    intro histUS histTW h
    simp [calculate_correlation, h]
  have full : ∀ histUS histTW : List (Stamp × ℚ), 10 ≤ (align histUS histTW).length →
      ssq (windowUS histUS histTW) ≠ 0 → ssq (windowTW histUS histTW) ≠ 0 →
      calculate_correlation histUS histTW =
        CorrValue.pearson (scp (windowUS histUS histTW) (windowTW histUS histTW))
          (ssq (windowUS histUS histTW)) (ssq (windowTW histUS histTW)) := by
    intro histUS histTW h10 hx hy
    rw [calculate_correlation, if_neg (by omega), if_neg (by simp [hx, hy])]
  have hx : ssq (windowUS sample10US sample10TW) ≠ 0 := by
    rw [windowUS_sample10, ssq_ten]
    norm_num
  have hy : ssq (windowTW sample10US sample10TW) ≠ 0 := by
    rw [windowTW_sample10, ssq_ten]
    norm_num
  exact ⟨short, full, by decide, short _ _ (by decide), by decide,
    ⟨_, _, _, full sample10US sample10TW (by decide) hx hy⟩⟩

/-- Witness for C1 (amended) at the concrete 9- and 10-point samples. -/
theorem corr_short_window_zero_witness :
    calculate_correlation sample9US sample9TW = CorrValue.ofRat 0 ∧
    calculate_correlation sample10US sample10TW =
      CorrValue.pearson (scp (windowUS sample10US sample10TW) (windowTW sample10US sample10TW))
        (ssq (windowUS sample10US sample10TW)) (ssq (windowTW sample10US sample10TW)) :=
  ⟨corr_short_window_zero.1 sample9US sample9TW (by decide),
   corr_short_window_zero.2.1 sample10US sample10TW (by decide)
     (by rw [windowUS_sample10, ssq_ten]; norm_num)
     (by rw [windowTW_sample10, ssq_ten]; norm_num)⟩

/-- C1 counterexample: a 9-point aligned pair makes the correlation
computation return the number zero — not a distinct insufficient-data
sentinel — and that zero is classified downstream into the weak/no-correlation
bucket, not as the 數據不足 (insufficient data) label that only a NaN
receives. -/
theorem corr_short_window_zero_cx :
    calculate_correlation sample9US sample9TW = CorrValue.ofRat 0 ∧
    CorrValue.ofRat 0 ≠ CorrValue.nan ∧
    corr_text (CorrValue.ofRat 0) = "💔 脫鉤/無明顯相關" ∧
    corr_text (CorrValue.ofRat 0) ≠ "數據不足" := by
  refine ⟨by decide, by decide, ?_, ?_⟩
  · norm_num [corr_text, corrIsNa, corrGtB, corrLtB]
  · norm_num [corr_text, corrIsNa, corrGtB, corrLtB]
    decide

/-- C5 (amended): zero variance in either tail column of an aligned pair of
at least 10 points makes `calculate_correlation` return NaN without raising;
the classification maps that NaN to the insufficient-data label, but the
formatted coefficient embedded in the report description renders as "nan". -/
theorem corr_zero_variance_nan :
    (∀ histUS histTW : List (Stamp × ℚ), 10 ≤ (align histUS histTW).length →
        ssq (windowUS histUS histTW) = 0 ∨ ssq (windowTW histUS histTW) = 0 →
        calculate_correlation histUS histTW = CorrValue.nan) ∧
    corr_text CorrValue.nan = "數據不足" ∧
    format_number PyOpt.nan false = "nan" := by
  refine ⟨?_, by decide, by decide⟩
  intro histUS histTW h10 hz
  rw [calculate_correlation, if_neg (by omega), if_pos hz]

/-- Witness for C5 (amended) at two constant ten-point series. -/
theorem corr_zero_variance_nan_witness :
    calculate_correlation sampleConst10US sampleConst10TW = CorrValue.nan :=
  corr_zero_variance_nan.1 sampleConst10US sampleConst10TW (by decide)
    (Or.inl (by rw [windowUS_const10, ssq_const5]))

/-- C5 counterexample: for two constant 10-point series the computation
resolves to NaN itself — there is no distinct sentinel value — and the
formatted correlation interpolated into the report description is the string
"nan": the NaN does reach the report text, though the classification label
next to it reads 數據不足. -/
theorem corr_zero_variance_nan_cx :
    calculate_correlation sampleConst10US sampleConst10TW = CorrValue.nan ∧
    format_number PyOpt.nan false = "nan" ∧
    format_number PyOpt.nan false ≠ "N/A" := by
  refine ⟨?_, by decide, by decide⟩
  rw [calculate_correlation, if_neg (by decide),
    if_pos (Or.inl (by rw [windowUS_const10, ssq_const5]))]

/-- Evaluation of the two-decimal rendering of the float 0. -/
theorem fmt2_zero : fmt2 0 = "0.00" := by
  have h0 : roundHalfEven ((0 : ℚ) * 100) = 0 := by norm_num [roundHalfEven]
  simp only [fmt2, h0]
  decide

/-- C4 (amended): with a truthy (present, nonzero) dividend rate and a
nonzero latest close, the yield is rate/close×100 regardless of any reported
yield fraction; with no truthy rate but a truthy reported fraction, it is the
fraction × 100; with neither, it is the number 0, which the report renders as
"0.00" (followed by a percent sign) — not as an "N/A" marker. -/
theorem yield_fallback_order :
    (∀ (rate divYield : Option ℚ) (c : ℚ), optTruthy rate = true → c ≠ 0 →
        resolveYield rate divYield (some c) = rate.getD 0 / c * 100) ∧
    (∀ (rate divYield closeLast : Option ℚ),
        optTruthy rate = false → optTruthy divYield = true →
        resolveYield rate divYield closeLast = divYield.getD 0 * 100) ∧
    (∀ (rate divYield closeLast : Option ℚ),
        optTruthy rate = false → optTruthy divYield = false →
        resolveYield rate divYield closeLast = 0 ∧
        format_number (PyOpt.val (resolveYield rate divYield closeLast)) false = "0.00") := by
  refine ⟨?_, ?_, ?_⟩
  · intro rate divYield c h1 h2
    simp [resolveYield, h1, h2]
  · intro rate divYield closeLast h1 h2
    rcases closeLast with _ | c <;> simp [resolveYield, yieldFallback, h1, h2]
  · intro rate divYield closeLast h1 h2
    have hz : resolveYield rate divYield closeLast = 0 := by
      rcases closeLast with _ | c <;> simp [resolveYield, yieldFallback, h1, h2]
    rw [hz]
    exact ⟨rfl, by simp [format_number, fmt2_zero]⟩

/-- Witness for C4 (amended): rate 3 over close 2 gives 150; a reported
fraction 1/20 with no rate gives 5; with neither the result is 0 rendered
"0.00". -/
theorem yield_fallback_order_witness :
    resolveYield (some 3) (some (1 / 2)) (some 2) = (some (3 : ℚ)).getD 0 / 2 * 100 ∧
    resolveYield Option.none (some (1 / 20)) (some 100) = (some ((1 : ℚ) / 20)).getD 0 * 100 ∧
    (resolveYield Option.none Option.none (some 100) = 0 ∧
      format_number (PyOpt.val (resolveYield Option.none Option.none (some 100))) false
        = "0.00") :=
  ⟨yield_fallback_order.1 (some 3) (some (1 / 2)) 2 (by norm_num [optTruthy]) (by norm_num),
   yield_fallback_order.2.1 Option.none (some (1 / 20)) (some 100) (by simp [optTruthy])
     (by norm_num [optTruthy]),
   yield_fallback_order.2.2 Option.none Option.none (some 100) (by simp [optTruthy])
     (by simp [optTruthy])⟩

/-- C4 counterexample: with neither a rate nor a reported fraction the yield
is the number 0 and the report shows "0.00" (not an "N/A" marker); moreover a
present-but-zero dividend rate with a nonzero close is falsy in Python, so
the reported fraction wins (yield 5), not the claimed rate/close×100 = 0. -/
theorem yield_fallback_order_cx :
    resolveYield Option.none Option.none (some 100) = 0 ∧
    format_number (PyOpt.val (resolveYield Option.none Option.none (some 100))) false
      = "0.00" ∧
    format_number (PyOpt.val 0) false ≠ "N/A" ∧
    resolveYield (some 0) (some (1 / 20)) (some 100) = 5 ∧
    (5 : ℚ) ≠ (some (0 : ℚ)).getD 0 / 100 * 100 := by
  refine ⟨by simp [resolveYield, optTruthy, yieldFallback], ?_, ?_, ?_, by norm_num⟩
  · simp [resolveYield, optTruthy, yieldFallback, format_number, fmt2_zero]
  · rw [format_number, fmt2_zero]
    decide
  · simp [resolveYield, optTruthy, yieldFallback]
    norm_num

/-- C10: a zero latest close makes the rate-over-price conjunction falsy, and
a missing latest close makes the rate branch raise into the blanket default,
so the division never has a zero divisor: the result is always the rate-free
fallback (or the caught-exception default 0 when a truthy rate meets a
missing close). -/
theorem yield_zero_close_safe :
    ∀ rate divYield : Option ℚ,
      resolveYield rate divYield (some 0) = yieldFallback divYield ∧
      resolveYield rate divYield Option.none =
        (if optTruthy rate = true then 0 else yieldFallback divYield) := by
  intro rate divYield
  constructor <;> by_cases h : optTruthy rate = true <;> simp [resolveYield, h]

/-- C8 (amended): a non-empty close series with nonzero first close is mapped
pointwise to `(close/firstClose − 1) × 100` with first output 0; the empty
series normalizes to nothing, and an empty series on either side makes the
chart draw no line at all, without error. -/
theorem normalize_rebase :
    (∀ (c0 : ℚ) (rest : List ℚ), c0 ≠ 0 →
        normalizeCloses (c0 :: rest) =
          (c0 :: rest).map (fun c => PyNum.fin ((c / c0 - 1) * 100)) ∧
        (normalizeCloses (c0 :: rest)).head? = some (PyNum.fin 0)) ∧
    normalizeCloses [] = [] ∧
    (∀ histTW : List (Stamp × ℚ), generate_chart_lines [] histTW = []) ∧
    (∀ histUS : List (Stamp × ℚ), generate_chart_lines histUS [] = []) := by
  refine ⟨?_, rfl, ?_, ?_⟩
  · intro c0 rest h
    have hmap : normalizeCloses (c0 :: rest) =
        (c0 :: rest).map (fun c => PyNum.fin ((c / c0 - 1) * 100)) := by
      simp [normalizeCloses, normPoint, pyDivNum, h]
    refine ⟨hmap, ?_⟩
    rw [hmap]
    simp [div_self h]
  · intro histTW
    simp [generate_chart_lines]
  · intro histUS
    simp [generate_chart_lines]

/-- Witness for C8 (amended) at the two-point series with closes 2, 3. -/
theorem normalize_rebase_witness :
    (normalizeCloses ((2 : ℚ) :: [3]) =
        ((2 : ℚ) :: [3]).map (fun c => PyNum.fin ((c / 2 - 1) * 100)) ∧
      (normalizeCloses ((2 : ℚ) :: [3])).head? = some (PyNum.fin 0)) :=
  normalize_rebase.1 2 [3] (by norm_num)

/-- C8 counterexample: a non-empty price series whose first close is 0 does
not normalize to percent changes with first point 0 — float division by the
zero first close makes the first point NaN and later points infinities. -/
theorem normalize_rebase_cx :
    normalizeCloses [0, 1] = [PyNum.nan, PyNum.inf true] ∧
    (normalizeCloses [0, 1]).head? ≠ some (PyNum.fin 0) := by
  have h : normalizeCloses [0, 1] = [PyNum.nan, PyNum.inf true] := by
    norm_num [normalizeCloses, normPoint, pyDivNum]
  refine ⟨h, ?_⟩
  rw [h]
  decide

/-- C6 (amended): report composition is deterministic given the data inputs
and the values of the two clock reads the source makes — `date.today()` in
the estimator and the Asia/Taipei `datetime.now` in the footer; every field
other than the earnings estimate and the footer is independent of both
reads, and equal clock values give equal reports. -/
theorem report_two_clock_reads :
    ∀ (nh th : List (Stamp × ℚ)) (ni ti : InfoDict) (eo : Option ℤ) (corr : CorrValue)
      (t1 n1 t2 n2 : ℤ) (r1 r2 : Report),
      compose_report nh th ni ti eo corr t1 n1 = some r1 →
      compose_report nh th ni ti eo corr t2 n2 = some r2 →
      r1.corr = r2.corr ∧ r1.corrText = r2.corrText ∧ r1.nkePrice = r2.nkePrice ∧
      r1.nkePct = r2.nkePct ∧ r1.nkePE = r2.nkePE ∧ r1.nkeRec = r2.nkeRec ∧
      r1.twPrice = r2.twPrice ∧ r1.twPct = r2.twPct ∧ r1.twPE = r2.twPE ∧
      r1.twYield = r2.twYield ∧ (t1 = t2 → n1 = n2 → r1 = r2) := by
  intro nh th ni ti eo corr t1 n1 t2 n2 r1 r2 h1 h2
  simp only [compose_report] at h1 h2
  rcases hA : ilocLast (List.map (fun p => p.2) nh) with _ | np
  · rw [hA] at h1
    simp at h1
  rcases hB : ilocPrev (List.map (fun p => p.2) nh) with _ | npv
  · rw [hA, hB] at h1
    simp at h1
  rcases hC : ilocLast (List.map (fun p => p.2) th) with _ | tp
  · rw [hA, hB, hC] at h1
    simp at h1
  rcases hD : ilocPrev (List.map (fun p => p.2) th) with _ | tpv
  · rw [hA, hB, hC, hD] at h1
    simp at h1
  rw [hA, hB, hC, hD] at h1 h2
  simp only [Option.some.injEq] at h1 h2
  subst h1
  subst h2
  refine ⟨rfl, rfl, rfl, rfl, rfl, rfl, rfl, rfl, rfl, rfl, ?_⟩
  intro ht hn
  subst ht
  subst hn
  rfl

/-- Composition of the concrete counterexample inputs under clock reads
(−100, 0). -/
theorem compose_cxA :
    compose_report cxHist cxHist cxInfo cxInfo (some (-50)) (CorrValue.ofRat 0) (-100) 0 =
      some cxReportA := rfl

/-- Composition of the concrete counterexample inputs under clock reads
(−100, 5). -/
theorem compose_cxB :
    compose_report cxHist cxHist cxInfo cxInfo (some (-50)) (CorrValue.ofRat 0) (-100) 5 =
      some cxReportB := rfl

/-- Composition of the concrete counterexample inputs under clock reads
(0, 0). -/
theorem compose_cxC :
    compose_report cxHist cxHist cxInfo cxInfo (some (-50)) (CorrValue.ofRat 0) 0 0 =
      some cxReportC := rfl

/-- A source date −50 is on or after a today of −100 and passes through. -/
theorem gsed_cx_plain :
    get_smart_earnings_date (some (-50)) Option.none (-100) = EarningsStr.plain (-50) := by
  norm_num [get_smart_earnings_date, rawDateOf]

/-- A source date −50 against a today of 0 rolls forward to day 41,
estimated. -/
theorem gsed_cx_estimated :
    get_smart_earnings_date (some (-50)) Option.none 0 = EarningsStr.estimated 41 := by
  have hstep : get_smart_earnings_date (some (-50 : ℤ)) Option.none (0 : ℤ) =
      EarningsStr.estimated (rollForward 0 (-50 + 91)) := by
    norm_num [get_smart_earnings_date, rawDateOf]
  rw [hstep, rollForward_of_ge (by norm_num)]
  norm_num

/-- C6 counterexample: two runs over identical data inputs and an identical
footer-clock instant (0) compose different reports when the hidden
`date.today()` read differs (−100 versus 0): the earnings field flips from a
pass-through date to a rolled-forward estimate. -/
theorem report_hidden_clock_cx :
    compose_report cxHist cxHist cxInfo cxInfo (some (-50)) (CorrValue.ofRat 0) (-100) 0 ≠
    compose_report cxHist cxHist cxInfo cxInfo (some (-50)) (CorrValue.ofRat 0) 0 0 := by
  intro h
  rw [compose_cxA, compose_cxC] at h
  simp only [cxReportA, cxReportC, gsed_cx_plain, gsed_cx_estimated,
    Option.some.injEq, Report.mk.injEq] at h
  exact absurd h.2.2.1 (by decide)

/-- Witness for C6 (amended): two runs with equal data and today but footer
reads 0 and 5 agree on every field other than the footer. -/
theorem report_two_clock_reads_witness :
    cxReportA.corr = cxReportB.corr ∧ cxReportA.corrText = cxReportB.corrText ∧
    cxReportA.nkePrice = cxReportB.nkePrice ∧ cxReportA.nkePct = cxReportB.nkePct ∧
    cxReportA.nkePE = cxReportB.nkePE ∧ cxReportA.nkeRec = cxReportB.nkeRec ∧
    cxReportA.twPrice = cxReportB.twPrice ∧ cxReportA.twPct = cxReportB.twPct ∧
    cxReportA.twPE = cxReportB.twPE ∧ cxReportA.twYield = cxReportB.twYield ∧
    ((-100 : ℤ) = -100 → (0 : ℤ) = 5 → cxReportA = cxReportB) :=
  report_two_clock_reads cxHist cxHist cxInfo cxInfo (some (-50)) (CorrValue.ofRat 0)
    (-100) 0 (-100) 5 cxReportA cxReportB compose_cxA compose_cxB

/-- Witness for C10 at a truthy rate 3 against a zero and a missing close. -/
theorem yield_zero_close_safe_witness :
    resolveYield (some 3) (some (1 / 2)) (some 0) = yieldFallback (some (1 / 2)) ∧
    resolveYield (some 3) (some (1 / 2)) Option.none =
      (if optTruthy (some (3 : ℚ)) = true then 0 else yieldFallback (some (1 / 2))) :=
  yield_zero_close_safe (some 3) (some (1 / 2))
